import Mathlib

/-!
Verification development for the `mcp-server-gemini` stdio server
(`src/stdio.ts`, reproduced in `src/src/types/index.ts`): a shallow
embedding of the JSON-RPC dispatcher (`GeminiMCPServer`), the sixteen
tool handlers, the chat-session store, and the error-mapping layer.

Modelling conventions:
* The generation backend (`model.generateContent` / SDK chat
  `sendMessage`) is an explicit function parameter
  `Backend := List ChatMessage → Option GenConfig → Except String String`:
  given the content list (role-tagged parts) and an optional generation
  config it returns generated text or fails with an error message
  (a thrown `Error` whose `.message` is the carried string).
* The filesystem (`fs.readFile(path)` followed by
  `buffer.toString('base64')`) is a parameter
  `FS := String → Except String String` returning the base64 payload.
* `JSON.parse` success (used only by `generateStructuredData`) is an
  oracle parameter `JsonCheck := String → Bool`.
* JavaScript `undefined` is `Option.none`; template interpolation of a
  possibly-undefined string uses `jsStr` (`undefined` prints as
  "undefined"); string truthiness (`if (s)`, `s ? a : b`) is `truthyStr`
  (undefined and the empty string are falsy); `x || ''` is `Option.getD ""`
  and destructuring defaults (`= 'default'`) are `Option.getD` as well,
  since they fire only on `undefined`.
* The server's mutable fields are a `ServerState`: the `chatSessions`
  map (association list, JS `Map` semantics: at most one entry per key,
  insertion order) holding each SDK chat session's accumulated history,
  plus `genCalls`, an instrumentation counter of backend invocations
  (not a source variable) used to observe how many generation calls a
  handler issues.
* A handler returns `ServerState × Except String MCPResponse`: `.ok` is
  a returned envelope (success or a handler-classified error response),
  `.error m` is a thrown failure with message `m`, which
  `handleToolsCall`'s catch block converts to an `InternalError`
  envelope.
-/

namespace GeminiMCP

/-- JSON-RPC request/response id: `string | number`. -/
inductive ReqId
  | num (n : Int)
  | str (s : String)
deriving DecidableEq, Repr

/-- The `error` member of an `MCPResponse`. -/
structure MCPError where
  code : Int
  message : String
deriving DecidableEq, Repr

/-- One entry of the static tool registry advertised by `tools/list`:
the name, description and the constraints its `inputSchema` declares
(`required`, `oneOf` alternatives, `minItems`/`maxItems` of `images`). -/
structure ToolDescriptor where
  name : String
  description : String
  required : List String := []
  oneOfRequired : List (List String) := []
  imagesMinItems : Option Nat := none
  imagesMaxItems : Option Nat := none
deriving DecidableEq, Repr

/-- The `result` member of an `MCPResponse`, covering the three result
shapes the server produces: a `{content: [{type: 'text', text}, ...]}`
envelope, the `initialize` result, and the `tools/list` catalog. -/
inductive RValue
  | content (texts : List String)
  | initResult (protocolVersion serverName serverVersion : String)
  | tools (ts : List ToolDescriptor)
deriving DecidableEq, Repr

/-- A JSON-RPC response; exactly one of `result`/`error` is `some` in
every envelope the server builds. -/
structure MCPResponse where
  id : ReqId
  result : Option RValue := none
  error : Option MCPError := none
deriving DecidableEq, Repr

/-- Gemini content-part roles. -/
inductive Role
  | user
  | model
deriving DecidableEq, Repr

/-- One element of a `parts` array: `{text}`, `{inlineData: {data, mimeType}}`,
or the JS `undefined` produced by `compareImages`' map for an image
reference carrying neither `path` nor `base64`. -/
inductive Part
  | text (s : String)
  | inline (data mimeType : String)
  | undef
deriving DecidableEq, Repr

/-- One element of a `contents` array / chat history. -/
structure ChatMessage where
  role : Role
  parts : List Part
deriving DecidableEq, Repr

/-- `generationConfig` as built by `generateText`. JS numbers are
modelled as rationals. -/
structure GenConfig where
  temperature : ℚ
  maxOutputTokens : ℚ
deriving DecidableEq, Repr

/-- The generation backend: `generateContent`/chat `sendMessage`. -/
abbrev Backend := List ChatMessage → Option GenConfig → Except String String

/-- `fs.readFile` composed with base64 encoding. -/
abbrev FS := String → Except String String

/-- `JSON.parse` success oracle. -/
abbrev JsonCheck := String → Bool

/-- One element of `compare_images`' `images` array. -/
structure ImgRef where
  path : Option String := none
  base64 : Option String := none
deriving DecidableEq, Repr

/-- The union of all argument fields destructured by the sixteen tool
handlers (`args` is an untyped bag in the source; absent = `none`).
`schema` is carried as its `JSON.stringify(schema, null, 2)` text. -/
structure ToolArgs where
  prompt : Option String := none
  temperature : Option ℚ := none
  maxTokens : Option ℚ := none
  imagePath : Option String := none
  imageBase64 : Option String := none
  images : Option (List ImgRef) := none
  language : Option String := none
  framework : Option String := none
  code : Option String := none
  sourceLanguage : Option String := none
  targetLanguage : Option String := none
  goals : Option (List String) := none
  message : Option String := none
  sessionId : Option String := none
  systemPrompt : Option String := none
  text : Option String := none
  style : Option String := none
  maxLength : Option Int := none
  targetAudience : Option String := none
  format : Option String := none
  schema : Option String := none
  content : Option String := none
  categories : Option (List String) := none
  level : Option String := none
deriving DecidableEq, Repr

/-- `params` of a `tools/call` request: `{name, arguments}`. -/
structure CallParams where
  name : Option String := none
  arguments : Option ToolArgs := none
deriving DecidableEq, Repr

/-- A parsed JSON-RPC request (`jsonrpc` is the constant "2.0"). -/
structure MCPRequest where
  id : ReqId
  method : String
  params : Option CallParams := none
deriving DecidableEq, Repr

/-- The server's mutable state: the `chatSessions` map (key ↦ the SDK
session's accumulated history) and the backend-invocation counter. -/
structure ServerState where
  chatSessions : List (String × List ChatMessage) := []
  genCalls : Nat := 0
deriving DecidableEq, Repr

/-! ### JavaScript-semantics helpers -/

/-- Componentwise decidable equality for handler outcomes. -/
instance {ε α : Type} [DecidableEq ε] [DecidableEq α] : DecidableEq (Except ε α) := fun x y =>
  match x, y with
  | Except.ok a, Except.ok b =>
      if h : a = b then isTrue (by rw [h]) else isFalse (by simp [h])
  | Except.error a, Except.error b =>
      if h : a = b then isTrue (by rw [h]) else isFalse (by simp [h])
  | Except.ok _, Except.error _ => isFalse (by simp)
  | Except.error _, Except.ok _ => isFalse (by simp)

/-- List version of textual prefix testing. -/
def listLeads {α : Type} [DecidableEq α] : List α → List α → Bool
  | [], _ => true
  | _ :: _, [] => false
  | a :: as, b :: bs => if a = b then listLeads as bs else false

/-- `String.prototype.startsWith` (executable model of the library
function, used by the dispatcher's notification check). -/
def jsStartsWith (s pre : String) : Bool := listLeads pre.data s.data

/-- JS string falsiness: `undefined` and `""` are falsy. -/
def falsyStr : Option String → Bool
  | none => true
  | some s => s == ""

/-- JS string truthiness (`if (s)`, `s ? _ : _`). -/
def truthyStr (o : Option String) : Bool := !(falsyStr o)

/-- Template-literal interpolation: `undefined` prints as "undefined". -/
def jsStr : Option String → String
  | none => "undefined"
  | some s => s

/-! ### JS `Map` operations (association list, at most one entry per key) -/

/-- `Map.get` / `Map.has`. -/
def mapGet {α : Type} : List (String × α) → String → Option α
  | [], _ => none
  | (k', v) :: rest, k => if k' = k then some v else mapGet rest k

/-- `Map.set`: replace in place, else append (JS insertion order). -/
def mapSet {α : Type} : List (String × α) → String → α → List (String × α)
  | [], k, v => [(k, v)]
  | (k', v') :: rest, k, v =>
      if k' = k then (k, v) :: rest else (k', v') :: mapSet rest k v

/-- `Map.delete`. -/
def mapDelete {α : Type} (m : List (String × α)) (k : String) :
    List (String × α) :=
  m.filter (fun p => p.1 != k)

/-! ### Helper methods of `GeminiMCPServer` -/

/-- `errorResponse(id, code, message)`. -/
def errorResponse (id : ReqId) (code : Int) (message : String) : MCPResponse :=
  { id := id, result := none, error := some { code := code, message := message } }

/-- `getMimeType(filePath)`: extension-based lookup with `image/jpeg`
as the default. -/
def getMimeType (filePath : String) : String :=
  let ext := (filePath.toLower.splitOn ".").getLastD ""
  if ext = "jpg" then "image/jpeg"
  else if ext = "jpeg" then "image/jpeg"
  else if ext = "png" then "image/png"
  else if ext = "gif" then "image/gif"
  else if ext = "webp" then "image/webp"
  else "image/jpeg"

/-- A single-text user turn `{role: 'user', parts: [{text}]}`. -/
def userTurn (s : String) : ChatMessage :=
  { role := Role.user, parts := [Part.text s] }

/-- A single-text model turn `{role: 'model', parts: [{text}]}`. -/
def modelTurn (s : String) : ChatMessage :=
  { role := Role.model, parts := [Part.text s] }

/-- One invocation of the generation backend; bumps the instrumentation
counter `genCalls`. -/
def callGen (be : Backend) (st : ServerState) (contents : List ChatMessage)
    (cfg : Option GenConfig) : ServerState × Except String String :=
  ({ st with genCalls := st.genCalls + 1 }, be contents cfg)

/-- SDK chat `sendMessage(msg)` on a session with history `hist`: the
backend sees the history plus the new user turn; on success the session
history also records the model's reply. -/
def sendMessage (be : Backend) (st : ServerState) (hist : List ChatMessage)
    (msg : String) :
    ServerState × Except String (String × List ChatMessage) :=
  let h := hist ++ [userTurn msg]
  match callGen be st h none with
  | (st', Except.error e) => (st', Except.error e)
  | (st', Except.ok t) =>
      (st', Except.ok (t, h ++ [modelTurn t]))

/-! ### Tool handlers (source order) -/

/-- `generateText(id, args)`: rejects a falsy `prompt` with
`InvalidParams` (-32602), otherwise submits one user turn with the
generation config (defaults: temperature 0.7, maxTokens 1000). -/
def generateText (be : Backend) (st : ServerState) (id : ReqId)
    (args : ToolArgs) : ServerState × Except String MCPResponse :=
  let prompt := args.prompt
  let temperature := args.temperature.getD (7 / 10 : ℚ)
  let maxTokens := args.maxTokens.getD (1000 : ℚ)
  if falsyStr prompt then
    (st, Except.ok (errorResponse id (-32602) "Missing prompt parameter"))
  else
    match callGen be st [userTurn (jsStr prompt)]
        (some { temperature := temperature, maxOutputTokens := maxTokens }) with
    | (st', Except.error e) => (st', Except.error e)
    | (st', Except.ok t) =>
        (st', Except.ok { id := id, result := some (RValue.content [t]), error := none })

/-- `analyzeImage(id, args)`: picks `imagePath` (filesystem read, MIME
from extension) over `imageBase64` (fixed `image/jpeg`); with neither,
`InvalidParams` "Missing image data"; then one vision call with
`[prompt, imageData]`. -/
def analyzeImage (be : Backend) (fsys : FS) (st : ServerState) (id : ReqId)
    (args : ToolArgs) : ServerState × Except String MCPResponse :=
  let prompt := args.prompt.getD "Describe this image in detail"
  let go (imageData : Part) : ServerState × Except String MCPResponse :=
    match callGen be st [{ role := Role.user, parts := [Part.text prompt, imageData] }] none with
    | (st', Except.error e) => (st', Except.error e)
    | (st', Except.ok t) =>
        (st', Except.ok { id := id, result := some (RValue.content [t]), error := none })
  if truthyStr args.imagePath then
    match fsys (jsStr args.imagePath) with
    | Except.error e => (st, Except.error e)
    | Except.ok data => go (Part.inline data (getMimeType (jsStr args.imagePath)))
  else if truthyStr args.imageBase64 then
    go (Part.inline (jsStr args.imageBase64) "image/jpeg")
  else
    (st, Except.ok (errorResponse id (-32602) "Missing image data"))

/-- `extractTextFromImage(id, args)`: delegates to `analyzeImage` with
the caller's `prompt` overwritten by the fixed OCR instruction. -/
def extractTextFromImage (be : Backend) (fsys : FS) (st : ServerState)
    (id : ReqId) (args : ToolArgs) : ServerState × Except String MCPResponse :=
  analyzeImage be fsys st id
    { args with prompt := some "Extract all text from this image. Provide only the extracted text without any additional commentary." }

/-- One element of `compareImages`' `images.map(...)`: `path` wins over
`base64`; an element with neither maps to JS `undefined` (`none`). -/
def imagePartOf (fsys : FS) (img : ImgRef) : Except String (Option Part) :=
  if truthyStr img.path then
    match fsys (jsStr img.path) with
    | Except.error e => Except.error e
    | Except.ok data =>
        Except.ok (some (Part.inline data (getMimeType (jsStr img.path))))
  else if truthyStr img.base64 then
    Except.ok (some (Part.inline (jsStr img.base64) "image/jpeg"))
  else
    Except.ok none

/-- `compareImages(id, args)`: rejects a missing array or fewer than 2
elements with `InvalidParams` "At least 2 images required" (no upper
bound is checked, although the schema declares `maxItems: 5`), then one
vision call with `[prompt, ...imageParts]`. -/
def compareImages (be : Backend) (fsys : FS) (st : ServerState) (id : ReqId)
    (args : ToolArgs) : ServerState × Except String MCPResponse :=
  let prompt := args.prompt.getD "Compare these images and describe their similarities and differences"
  match args.images with
  | none => (st, Except.ok (errorResponse id (-32602) "At least 2 images required"))
  | some imgs =>
    if imgs.length < 2 then
      (st, Except.ok (errorResponse id (-32602) "At least 2 images required"))
    else
      match imgs.mapM (imagePartOf fsys) with
      | Except.error e => (st, Except.error e)
      | Except.ok parts =>
        let ps := parts.map (fun o => o.getD Part.undef)
        match callGen be st [{ role := Role.user, parts := Part.text prompt :: ps }] none with
        | (st', Except.error e) => (st', Except.error e)
        | (st', Except.ok t) =>
            (st', Except.ok { id := id, result := some (RValue.content [t]), error := none })

/-- `generateCode(id, args)`: prompt template, then `generateText`. -/
def generateCode (be : Backend) (st : ServerState) (id : ReqId)
    (args : ToolArgs) : ServerState × Except String MCPResponse :=
  let language := args.language.getD "python"
  let fullPrompt :=
    "Generate " ++ language ++ " code" ++
    (if truthyStr args.framework then " using " ++ jsStr args.framework else "") ++
    " for the following requirement:\n\n" ++ jsStr args.prompt ++
    "\n\nProvide only the code with appropriate comments. Use best practices and proper error handling."
  generateText be st id { prompt := some fullPrompt }

/-- `explainCode(id, args)`: prompt template (no required-argument
check: a missing `code` interpolates as "undefined"), then
`generateText`. -/
def explainCode (be : Backend) (st : ServerState) (id : ReqId)
    (args : ToolArgs) : ServerState × Except String MCPResponse :=
  let fullPrompt :=
    "Explain the following" ++
    (if truthyStr args.language then " " ++ jsStr args.language else "") ++
    " code in detail:\n\n```" ++ args.language.getD "" ++ "\n" ++
    jsStr args.code ++
    "\n```\n\nProvide a comprehensive explanation including what it does, how it works, and any important considerations."
  generateText be st id { prompt := some fullPrompt }

/-- `refactorCode(id, args)`. -/
def refactorCode (be : Backend) (st : ServerState) (id : ReqId)
    (args : ToolArgs) : ServerState × Except String MCPResponse :=
  let goals := args.goals.getD []
  let goalsList :=
    if goals.length > 0 then "\nRefactoring goals: " ++ String.intercalate ", " goals else ""
  let fullPrompt :=
    "Refactor the following" ++
    (if truthyStr args.language then " " ++ jsStr args.language else "") ++
    " code" ++ goalsList ++ ":\n\n```" ++ args.language.getD "" ++ "\n" ++
    jsStr args.code ++
    "\n```\n\nProvide the refactored code with explanations of the changes made."
  generateText be st id { prompt := some fullPrompt }

/-- `convertCode(id, args)`. -/
def convertCode (be : Backend) (st : ServerState) (id : ReqId)
    (args : ToolArgs) : ServerState × Except String MCPResponse :=
  let fullPrompt :=
    "Convert the following code from " ++
    (if truthyStr args.sourceLanguage then jsStr args.sourceLanguage else "the source language") ++
    " to " ++ jsStr args.targetLanguage ++ ":\n\n```" ++
    args.sourceLanguage.getD "" ++ "\n" ++ jsStr args.code ++
    "\n```\n\nProvide the converted code maintaining the same functionality and using idiomatic " ++
    jsStr args.targetLanguage ++ " patterns."
  generateText be st id { prompt := some fullPrompt }

/-- The synthetic history `startChat` is seeded with: empty unless a
truthy `systemPrompt` is supplied, in which case one synthetic user turn
and one synthetic model acknowledgment. -/
def seedHistory (systemPrompt : Option String) : List ChatMessage :=
  if falsyStr systemPrompt then []
  else
    [userTurn ("System: " ++ jsStr systemPrompt),
     modelTurn "Understood. I will follow these instructions."]

/-- `chat(id, args)`: create the session on first use for the key
(seeding from `systemPrompt` only then — first-write-wins), then
`sendMessage(message)` and store the grown history. -/
def chat (be : Backend) (st : ServerState) (id : ReqId) (args : ToolArgs) :
    ServerState × Except String MCPResponse :=
  let sessionId := args.sessionId.getD "default"
  let st1 :=
    if (mapGet st.chatSessions sessionId).isSome then st
    else { st with chatSessions := mapSet st.chatSessions sessionId (seedHistory args.systemPrompt) }
  let hist := (mapGet st1.chatSessions sessionId).getD []
  match sendMessage be st1 hist (jsStr args.message) with
  | (st2, Except.error e) => (st2, Except.error e)
  | (st2, Except.ok (t, h')) =>
      ({ st2 with chatSessions := mapSet st2.chatSessions sessionId h' },
       Except.ok { id := id, result := some (RValue.content [t]), error := none })

/-- `clearChatHistory(id, args)`: deletes the session and reports. -/
def clearChatHistory (st : ServerState) (id : ReqId) (args : ToolArgs) :
    ServerState × Except String MCPResponse :=
  let sessionId := args.sessionId.getD "default"
  ({ st with chatSessions := mapDelete st.chatSessions sessionId },
   Except.ok { id := id,
               result := some (RValue.content ["Chat history cleared for session: " ++ sessionId]),
               error := none })

/-- The fixed message `summarizeConversation` sends to the session. -/
def summaryRequestText : String :=
  "Please provide a concise summary of our conversation so far."

/-- `summarizeConversation(id, args)`: `InvalidParams` when no session
exists for the key; otherwise one extra `sendMessage` asking the backend
for the summary (no local computation). -/
def summarizeConversation (be : Backend) (st : ServerState) (id : ReqId)
    (args : ToolArgs) : ServerState × Except String MCPResponse :=
  let sessionId := args.sessionId.getD "default"
  match mapGet st.chatSessions sessionId with
  | none =>
      (st, Except.ok (errorResponse id (-32602) "No chat history found for this session"))
  | some hist =>
      match sendMessage be st hist summaryRequestText with
      | (st2, Except.error e) => (st2, Except.error e)
      | (st2, Except.ok (t, h')) =>
          ({ st2 with chatSessions := mapSet st2.chatSessions sessionId h' },
           Except.ok { id := id, result := some (RValue.content [t]), error := none })

/-- `translateText(id, args)`. -/
def translateText (be : Backend) (st : ServerState) (id : ReqId)
    (args : ToolArgs) : ServerState × Except String MCPResponse :=
  let fullPrompt :=
    "Translate the following text" ++
    (if truthyStr args.sourceLanguage then " from " ++ jsStr args.sourceLanguage else "") ++
    " to " ++ jsStr args.targetLanguage ++
    ". Provide only the translation without any additional explanation:\n\n" ++
    jsStr args.text
  generateText be st id { prompt := some fullPrompt }

/-- `styleInstructions[style]`: object lookup, JS `undefined` (printed
"undefined") for an unknown key. -/
def styleInstructionFor (style : String) : String :=
  if style = "brief" then "Provide a brief summary in 2-3 sentences"
  else if style = "detailed" then "Provide a detailed summary covering all main points"
  else if style = "bullet-points" then "Provide a summary using bullet points"
  else if style = "executive" then "Provide an executive summary suitable for business readers"
  else "undefined"

/-- `summarizeText(id, args)` (`maxLength` modelled as an integer; JS
renders integral numbers identically). -/
def summarizeText (be : Backend) (st : ServerState) (id : ReqId)
    (args : ToolArgs) : ServerState × Except String MCPResponse :=
  let style := args.style.getD "brief"
  let lengthInstruction :=
    match args.maxLength with
    | some n => if n = 0 then "" else " in no more than " ++ toString n ++ " words"
    | none => ""
  let fullPrompt :=
    styleInstructionFor style ++ lengthInstruction ++
    " of the following text:\n\n" ++ jsStr args.text
  generateText be st id { prompt := some fullPrompt }

/-- `rewriteText(id, args)` (no required-argument check: missing `text`
or `style` interpolate as "undefined"). -/
def rewriteText (be : Backend) (st : ServerState) (id : ReqId)
    (args : ToolArgs) : ServerState × Except String MCPResponse :=
  let fullPrompt :=
    "Rewrite the following text in a " ++ jsStr args.style ++ " style" ++
    (if truthyStr args.targetAudience then " for " ++ jsStr args.targetAudience else "") ++
    ":\n\n" ++ jsStr args.text
  generateText be st id { prompt := some fullPrompt }

/-- The fence `generateStructuredData` wraps non-parsing JSON output in. -/
def jsonFence (t : String) : String := "```json\n" ++ t ++ "\n```"

/-- `generateStructuredData(id, args)`: prompt template, then
`generateText`; when `format === 'json'` and the call produced a result,
validate the text with `JSON.parse` and on failure wrap it in a fenced
code block — still a success envelope. Other formats are returned
unchanged (no validation pass exists for them). -/
def generateStructuredData (be : Backend) (jp : JsonCheck) (st : ServerState)
    (id : ReqId) (args : ToolArgs) : ServerState × Except String MCPResponse :=
  let format := args.format.getD "json"
  let schemaInstruction :=
    match args.schema with
    | some s => "\n\nFollow this schema:\n" ++ s
    | none => ""
  let fullPrompt :=
    "Generate " ++ format.toUpper ++ " data for: " ++ jsStr args.prompt ++
    schemaInstruction ++ "\n\nProvide only the " ++ format ++
    " data without any markdown code blocks or additional explanation."
  match generateText be st id { prompt := some fullPrompt } with
  | (st', Except.error e) => (st', Except.error e)
  | (st', Except.ok resp) =>
    if format = "json" then
      match resp.result with
      | some (RValue.content (t :: rest)) =>
          if jp t then (st', Except.ok resp)
          else (st', Except.ok { resp with result := some (RValue.content (jsonFence t :: rest)) })
      | _ => (st', Except.ok resp)
    else (st', Except.ok resp)

/-- `checkContentSafety(id, args)`. -/
def checkContentSafety (be : Backend) (st : ServerState) (id : ReqId)
    (args : ToolArgs) : ServerState × Except String MCPResponse :=
  let categories := args.categories.getD ["harassment", "hate", "sexual", "dangerous"]
  let fullPrompt :=
    "Analyze the following content for safety issues in these categories: " ++
    String.intercalate ", " categories ++ ". \n    \nContent: \"" ++
    jsStr args.content ++
    "\"\n\nProvide a safety assessment with:\n1. Overall safety rating (safe/caution/unsafe)\n2. Specific concerns for each category\n3. Recommendations if any issues are found\n\nFormat as JSON."
  generateText be st id { prompt := some fullPrompt }

/-- `levelInstructions[level]`: object lookup, "undefined" otherwise. -/
def levelInstructionFor (level : String) : String :=
  if level = "strict" then "Remove or modify any potentially inappropriate content"
  else if level = "moderate" then "Clean up obviously inappropriate content while preserving meaning"
  else if level = "lenient" then "Only remove explicit inappropriate content"
  else "undefined"

/-- `moderateText(id, args)`. -/
def moderateText (be : Backend) (st : ServerState) (id : ReqId)
    (args : ToolArgs) : ServerState × Except String MCPResponse :=
  let level := args.level.getD "moderate"
  let fullPrompt :=
    levelInstructionFor level ++
    " in the following text. Return the cleaned version:\n\n" ++ jsStr args.text
  generateText be st id { prompt := some fullPrompt }

/-! ### The static tool registry (`handleToolsList`'s catalog) -/

/-- The sixteen descriptors, in declaration order, carrying each
`inputSchema`'s declared constraints. -/
def toolDescriptors : List ToolDescriptor :=
  [{ name := "generate_text",
     description := "Generate text using Google Gemini",
     required := ["prompt"] },
   { name := "analyze_image",
     description := "Analyze an image and answer questions about it",
     oneOfRequired := [["imagePath", "prompt"], ["imageBase64", "prompt"]] },
   { name := "extract_text_from_image",
     description := "Extract text (OCR) from an image",
     oneOfRequired := [["imagePath"], ["imageBase64"]] },
   { name := "compare_images",
     description := "Compare multiple images and describe differences/similarities",
     required := ["images"],
     imagesMinItems := some 2, imagesMaxItems := some 5 },
   { name := "generate_code",
     description := "Generate code in a specific programming language",
     required := ["prompt"] },
   { name := "explain_code",
     description := "Analyze and explain code",
     required := ["code"] },
   { name := "refactor_code",
     description := "Suggest improvements and refactor code",
     required := ["code"] },
   { name := "convert_code",
     description := "Convert code from one language to another",
     required := ["code", "targetLanguage"] },
   { name := "chat",
     description := "Have a conversation with context memory",
     required := ["message"] },
   { name := "clear_chat_history",
     description := "Clear conversation history for a session" },
   { name := "summarize_conversation",
     description := "Get a summary of the conversation" },
   { name := "translate_text",
     description := "Translate text between languages",
     required := ["text", "targetLanguage"] },
   { name := "summarize_text",
     description := "Create a summary of text",
     required := ["text"] },
   { name := "rewrite_text",
     description := "Rewrite text in a different style or tone",
     required := ["text", "style"] },
   { name := "generate_structured_data",
     description := "Generate structured data (JSON, YAML, CSV, etc.)",
     required := ["prompt"] },
   { name := "check_content_safety",
     description := "Analyze content for safety issues",
     required := ["content"] },
   { name := "moderate_text",
     description := "Filter and clean inappropriate content",
     required := ["text"] }]

/-- The registered tool names, in the order of `handleToolsCall`'s
switch cases (the same set as the catalog's names). -/
def toolNames : List String :=
  ["generate_text", "analyze_image", "extract_text_from_image", "compare_images",
   "generate_code", "explain_code", "refactor_code", "convert_code",
   "chat", "clear_chat_history", "summarize_conversation",
   "translate_text", "summarize_text", "rewrite_text", "generate_structured_data",
   "check_content_safety", "moderate_text"]

/-- The declared schema constraints of a registered tool. -/
def descriptorOf (n : String) : Option ToolDescriptor :=
  toolDescriptors.find? (fun d => d.name == n)

/-! ### Dispatcher -/

/-- `handleInitialize(request)`. -/
def handleInitialize (req : MCPRequest) : MCPResponse :=
  { id := req.id,
    result := some (RValue.initResult "2024-11-05" "gemini-2.5-pro-mcp-server" "2.5.0"),
    error := none }

/-- `handleToolsList(request)`. -/
def handleToolsList (req : MCPRequest) : MCPResponse :=
  { id := req.id, result := some (RValue.tools toolDescriptors), error := none }

/-- `handleToolsCall(request)`: extract `name`/`arguments` from
`params`, dispatch through the switch (an unmatched or absent name hits
the default branch: error code -32602, message naming the tool); the
surrounding try/catch maps any thrown handler failure to an envelope
with code -32603 and message `"Error: " + message`. -/
def handleToolsCall (be : Backend) (fsys : FS) (jp : JsonCheck)
    (st : ServerState) (req : MCPRequest) : ServerState × MCPResponse :=
  let toolName := req.params.bind CallParams.name
  let args := (req.params.bind CallParams.arguments).getD {}
  let dispatched : ServerState × Except String MCPResponse :=
    if toolName = some "generate_text" then generateText be st req.id args
    else if toolName = some "analyze_image" then analyzeImage be fsys st req.id args
    else if toolName = some "extract_text_from_image" then extractTextFromImage be fsys st req.id args
    else if toolName = some "compare_images" then compareImages be fsys st req.id args
    else if toolName = some "generate_code" then generateCode be st req.id args
    else if toolName = some "explain_code" then explainCode be st req.id args
    else if toolName = some "refactor_code" then refactorCode be st req.id args
    else if toolName = some "convert_code" then convertCode be st req.id args
    else if toolName = some "chat" then chat be st req.id args
    else if toolName = some "clear_chat_history" then clearChatHistory st req.id args
    else if toolName = some "summarize_conversation" then summarizeConversation be st req.id args
    else if toolName = some "translate_text" then translateText be st req.id args
    else if toolName = some "summarize_text" then summarizeText be st req.id args
    else if toolName = some "rewrite_text" then rewriteText be st req.id args
    else if toolName = some "generate_structured_data" then generateStructuredData be jp st req.id args
    else if toolName = some "check_content_safety" then checkContentSafety be st req.id args
    else if toolName = some "moderate_text" then moderateText be st req.id args
    else (st, Except.ok (errorResponse req.id (-32602) ("Unknown tool: " ++ jsStr toolName)))
  match dispatched with
  | (st', Except.ok resp) => (st', resp)
  | (st', Except.error msg) =>
      (st', errorResponse req.id (-32603) ("Error: " ++ msg))

/-- `handleRequest(request)` plus the line handler's output rule: a
`none` second component means no output line is emitted (the source
returns `null` for methods starting with "notifications/" and the line
handler prints only non-null responses); every other method yields
exactly one response envelope. `resources/list` and `prompts/list`
deliberately answer with the MethodNotFound envelope (code -32601),
identical to the default branch. -/
def handleRequest (be : Backend) (fsys : FS) (jp : JsonCheck)
    (st : ServerState) (req : MCPRequest) : ServerState × Option MCPResponse :=
  if jsStartsWith req.method "notifications/" then (st, none)
  else if req.method = "initialize" then (st, some ( handleInitialize req))
  else if req.method = "tools/list" then (st, some (handleToolsList req))
  else if req.method = "tools/call" then
    let p := handleToolsCall be fsys jp st req
    (p.1, some p.2)
  else if req.method = "resources/list" ∨ req.method = "prompts/list" then
    (st, some { id := req.id, result := none,
                error := some { code := -32601, message := "Method not found" } })
  else
    (st, some { id := req.id, result := none,
                error := some { code := -32601, message := "Method not found" } })

/-! ### Concrete fixtures used by counterexamples and witnesses -/

/-- A backend that always returns the text "OUT". -/
def be0 : Backend := fun _ _ => Except.ok "OUT"

/-- A filesystem on which every read succeeds with base64 "B64DATA". -/
def fs0 : FS := fun _ => Except.ok "B64DATA"

/-- A `JSON.parse` oracle that accepts nothing. -/
def jp0 : JsonCheck := fun _ => false

/-- The server initial state: no sessions, no backend calls. -/
def st0 : ServerState := { chatSessions := [], genCalls := 0 }

/-- A total backend computed by a pure function of the content list. -/
def beF (f : List ChatMessage → String) : Backend :=
  fun contents _ => Except.ok (f contents)

/-! ### Session-map lemmas -/

theorem mapGet_mapSet_self {α : Type} (m : List (String × α)) (k : String) (v : α) :
    mapGet (mapSet m k v) k = some v := by
  induction m with
  | nil => simp [mapSet, mapGet]
  | cons p rest ih =>
      obtain ⟨k', v'⟩ := p
      by_cases hk : k' = k
      · simp [mapSet, mapGet, hk]
      · simp [mapSet, mapGet, hk, ih]

theorem mapGet_mapDelete_self {α : Type} (m : List (String × α)) (k : String) :
    mapGet (mapDelete m k) k = none := by
  induction m with
  | nil => simp [mapDelete, mapGet]
  | cons p rest ih =>
      obtain ⟨k', v'⟩ := p
      by_cases hk : k' = k
      · simpa [mapDelete, List.filter_cons, hk] using ih
      · simpa [mapDelete, mapGet, List.filter_cons, hk] using ih


/-! ### Claim theorems -/

/-- Claim C1, counterexample: a well-formed `tools/call` request naming the
unregistered tool "no_such_tool" is answered with error code -32602 (the
InvalidParams code, the one `errorResponse` uses for missing arguments),
which differs from -32601, the MethodNotFound code this very dispatcher
uses for unknown methods — so the claim "the code is the MethodNotFound
code" is false on the code. -/
theorem unknownTool_code_not_methodNotFound :
    (handleToolsCall be0 fs0 jp0 st0
      { id := ReqId.num 1, method := "tools/call",
        params := some { name := some "no_such_tool" } }).2
      = errorResponse (ReqId.num 1) (-32602) "Unknown tool: no_such_tool"
    ∧ (-32602 : Int) ≠ -32601 := by decide

/-- Claim C1, amended: for every well-formed `tools/call` request whose
`params.name` does not resolve to any of the 16 registered tool names,
the dispatcher returns an error envelope with code -32602 (the
InvalidParams code, not the MethodNotFound code) whose message is
"Unknown tool: " followed by the supplied name (so it contains the
name). -/
theorem handleToolsCall_unknownTool_invalidParamsCode (be : Backend) (fsys : FS)
    (jp : JsonCheck) (st : ServerState) (id : ReqId) (nm : String)
    (argsOpt : Option ToolArgs) (h : nm ∉ toolNames) :
    (handleToolsCall be fsys jp st
      { id := id, method := "tools/call",
        params := some { name := some nm, arguments := argsOpt } }).2
      = errorResponse id (-32602) ("Unknown tool: " ++ nm) := by
  simp only [toolNames, List.mem_cons, List.not_mem_nil, or_false, not_or] at h
  obtain ⟨h1, h2, h3, h4, h5, h6, h7, h8, h9, h10, h11, h12, h13, h14, h15, h16, h17⟩ := h
  simp [handleToolsCall, jsStr, h1, h2, h3, h4, h5, h6, h7, h8, h9, h10, h11, h12, h13,
    h14, h15, h16, h17]

/-- Claim C1, witness for the amended theorem at the concrete unregistered
name "nope". -/
theorem unknownTool_invalidParamsCode_witness :
    (handleToolsCall be0 fs0 jp0 st0
      { id := ReqId.num 2, method := "tools/call",
        params := some { name := some "nope", arguments := none } }).2
      = errorResponse (ReqId.num 2) (-32602) ("Unknown tool: " ++ "nope") :=
  handleToolsCall_unknownTool_invalidParamsCode be0 fs0 jp0 st0 (ReqId.num 2) "nope" none
    (by decide)

/-- Claim C2, counterexample: a message with the bare method "exit" is not
treated as a notification — the dispatcher falls through to the default
branch and an output line (a MethodNotFound error envelope) is emitted,
so the claim is false for the "exit" keyword. -/
theorem exit_method_emits_output :
    handleRequest be0 fs0 jp0 st0 { id := ReqId.num 1, method := "exit" }
      = (st0, some { id := ReqId.num 1, result := none,
                     error := some { code := -32601, message := "Method not found" } }) := by
  decide

/-- Claim C2, amended: for every parsed message whose method begins with
the notification prefix "notifications/", the server emits no output
line, regardless of payload validity (the bare "exit" keyword is not
special-cased and receives a MethodNotFound error envelope instead). -/
theorem handleRequest_notificationPrefix_noOutput (be : Backend) (fsys : FS)
    (jp : JsonCheck) (st : ServerState) (req : MCPRequest)
    (h : jsStartsWith req.method "notifications/" = true) :
    handleRequest be fsys jp st req = (st, none) := by
  simp [handleRequest, h]

/-- Claim C2, witness: a "notifications/progress" message with a garbage
payload produces no output. -/
theorem notificationPrefix_noOutput_witness :
    handleRequest be0 fs0 jp0 st0
      { id := ReqId.num 3, method := "notifications/progress",
        params := some { name := some "garbage" } }
      = (st0, none) :=
  handleRequest_notificationPrefix_noOutput be0 fs0 jp0 st0
    { id := ReqId.num 3, method := "notifications/progress",
      params := some { name := some "garbage" } } (by decide)

/-- Claim C3 (code bug): a `compare_images` call with six images is NOT
rejected — the handler only checks the lower bound, so the six-image
call reaches the backend and returns a success envelope, although the
registered input schema of the tool itself declares `maxItems: 5`; the
one-image call is rejected with InvalidParams as claimed. -/
theorem compareImages_six_images_not_rejected :
    (compareImages be0 fs0 st0 (ReqId.num 1)
      { images := some (List.replicate 6 { base64 := some "AAAA" }) }).2
      = Except.ok { id := ReqId.num 1, result := some (RValue.content ["OUT"]), error := none }
    ∧ (compareImages be0 fs0 st0 (ReqId.num 1)
      { images := some [{ base64 := some "AAAA" }] }).2
      = Except.ok (errorResponse (ReqId.num 1) (-32602) "At least 2 images required")
    ∧ Option.bind (descriptorOf "compare_images") ToolDescriptor.imagesMaxItems = some 5 := by
  decide

/-- Claim C4 (code bug): `explain_code` invoked with no `code` argument
and `rewrite_text` invoked with neither `text` nor `style` do NOT return
InvalidParams — they interpolate the missing fields as "undefined" into
the prompt template and return a success envelope — although their
registered input schemas declare those fields required; only the
handlers with an explicit guard (here `generate_text`) reject a missing
required argument. -/
theorem required_args_not_validated_by_template_handlers :
    (explainCode be0 st0 (ReqId.num 1) {}).2
      = Except.ok { id := ReqId.num 1, result := some (RValue.content ["OUT"]), error := none }
    ∧ (rewriteText be0 st0 (ReqId.num 1) {}).2
      = Except.ok { id := ReqId.num 1, result := some (RValue.content ["OUT"]), error := none }
    ∧ (generateText be0 st0 (ReqId.num 1) {}).2
      = Except.ok (errorResponse (ReqId.num 1) (-32602) "Missing prompt parameter")
    ∧ Option.map ToolDescriptor.required (descriptorOf "explain_code") = some ["code"]
    ∧ Option.map ToolDescriptor.required (descriptorOf "rewrite_text") = some ["text", "style"] := by
  decide

/-- Claim C5, counterexample: when the backend fails with message "boom",
the dispatcher returns the InternalError envelope with message
"Error: boom", which is not equal to the original message "boom" — the
message is forwarded with an "Error: " markup, not verbatim. -/
theorem internalError_message_not_verbatim :
    (handleToolsCall (fun _ _ => Except.error "boom") fs0 jp0 st0
      { id := ReqId.num 1, method := "tools/call",
        params := some { name := some "generate_text",
                         arguments := some { prompt := some "hi" } } }).2
      = errorResponse (ReqId.num 1) (-32603) "Error: boom"
    ∧ "Error: boom" ≠ "boom" := by decide

/-- Claim C5, amended: for every non-validation handler failure — a
backend failure (here under `generate_text`) or a filesystem read
failure (here under `analyze_image`) with message `m` — the dispatcher
returns an error envelope with the InternalError code -32603 whose
message is "Error: " followed by the original message `m` (the original
message is forwarded as the suffix, not verbatim as the whole). -/
theorem handleToolsCall_failure_prefixed (m : String) (st : ServerState) (id : ReqId) :
    (handleToolsCall (fun _ _ => Except.error m) fs0 jp0 st
      { id := id, method := "tools/call",
        params := some { name := some "generate_text",
                         arguments := some { prompt := some "hi" } } }).2
      = errorResponse id (-32603) ("Error: " ++ m)
    ∧ (handleToolsCall be0 (fun _ => Except.error m) jp0 st
      { id := id, method := "tools/call",
        params := some { name := some "analyze_image",
                         arguments := some { imagePath := some "photo.png" } } }).2
      = errorResponse id (-32603) ("Error: " ++ m) := ⟨rfl, rfl⟩

/-- Claim C6: every request with method `resources/list` or `prompts/list`
is answered with the MethodNotFound error envelope (code -32601,
`result` absent) — never a success envelope with an empty list. -/
theorem handleRequest_discovery_methodNotFound (be : Backend) (fsys : FS)
    (jp : JsonCheck) (st : ServerState) (req : MCPRequest)
    (h : req.method = "resources/list" ∨ req.method = "prompts/list") :
    handleRequest be fsys jp st req
      = (st, some { id := req.id, result := none,
                    error := some { code := -32601, message := "Method not found" } }) := by
  obtain ⟨i, m, ps⟩ := req
  rcases h with h | h <;> (dsimp only at h; subst h; rfl)

/-- Claim C6, witness at the concrete method "prompts/list". -/
theorem discovery_methodNotFound_witness :
    handleRequest be0 fs0 jp0 st0 { id := ReqId.num 7, method := "prompts/list" }
      = (st0, some { id := ReqId.num 7, result := none,
                     error := some { code := -32601, message := "Method not found" } }) :=
  handleRequest_discovery_methodNotFound be0 fs0 jp0 st0
    { id := ReqId.num 7, method := "prompts/list" } (Or.inr rfl)

/-- Claim C7, counterexample: for format "yaml" the handler performs no
parse attempt at all — with a backend returning "[" (valid in neither
YAML nor JSON; the oracle `jp0` rejects everything) the call returns the
raw text "[" unmodified, not wrapped in any fenced code annotation — so
the claim, quantified over structured-data formats, fails outside
"json". -/
theorem structuredData_yaml_not_wrapped :
    (generateStructuredData (fun _ _ => Except.ok "[") jp0 st0 (ReqId.num 1)
      { prompt := some "p", format := some "yaml" }).2
      = Except.ok { id := ReqId.num 1, result := some (RValue.content ["["]), error := none }
    ∧ "[" ≠ jsonFence "[" ∧ "[" ≠ "```yaml\n[\n```" := by decide

/-- Claim C7, amended: only for format "json" is a parse attempted: when
the backend text fails `JSON.parse`, the call still returns a success
envelope whose text is the raw text wrapped in a fenced ```json code
annotation; for every other declared format (yaml, csv, xml, toml) the
text is returned unchanged. -/
theorem generateStructuredData_json_wraps_unparseable (jp : JsonCheck) (t : String)
    (st : ServerState) (id : ReqId) (h : jp t = false) :
    (generateStructuredData (fun _ _ => Except.ok t) jp st id
      { prompt := some "p", format := some "json" }).2
      = Except.ok { id := id, result := some (RValue.content [jsonFence t]), error := none }
    ∧ ∀ f : String, f ∈ ["yaml", "csv", "xml", "toml"] →
      (generateStructuredData (fun _ _ => Except.ok t) jp st id
        { prompt := some "p", format := some f }).2
        = Except.ok { id := id, result := some (RValue.content [t]), error := none } := by
  constructor
  · unfold generateStructuredData generateText callGen
    simp +decide [h, falsyStr, jsStr, jsonFence]
  · intro f hf
    fin_cases hf <;> rfl

/-- Claim C7, witness: concrete backend text "not json", rejected by a
concrete parse oracle, is returned wrapped in the json fence. -/
theorem structuredData_json_wrap_witness :
    (generateStructuredData (fun _ _ => Except.ok "not json") (fun _ => false) st0 (ReqId.num 9)
      { prompt := some "p", format := some "json" }).2
      = Except.ok { id := ReqId.num 9, result := some (RValue.content [jsonFence "not json"]),
                    error := none } :=
  (generateStructuredData_json_wraps_unparseable (fun _ => false) "not json" st0 (ReqId.num 9)
    rfl).1

/-- Claim C8: when no session exists for key `sid`,
`summarize_conversation` returns the InvalidParams error envelope and
leaves the state (including the backend-call count) untouched; after a
successful `chat` for `sid`, `summarize_conversation` succeeds, its text
being the backend output for the stored history extended with the fixed
summary request — one extra generation call (`genCalls` grows by exactly
one), not a locally computed summary. -/
theorem summarize_needs_session_then_one_extra_call
    (f : List ChatMessage → String) (st : ServerState) (id1 id2 id3 : ReqId)
    (sid msg : String) (h : mapGet st.chatSessions sid = none) :
    summarizeConversation (beF f) st id3 { sessionId := some sid }
      = (st, Except.ok (errorResponse id3 (-32602) "No chat history found for this session"))
    ∧ (let p := chat (beF f) st id1 { message := some msg, sessionId := some sid }
       ∃ hist : List ChatMessage,
         p.2 = Except.ok { id := id1, result := some (RValue.content [f [userTurn msg]]), error := none }
         ∧ mapGet p.1.chatSessions sid = some hist
         ∧ (summarizeConversation (beF f) p.1 id2 { sessionId := some sid }).2
             = Except.ok { id := id2,
                           result := some (RValue.content [f (hist ++ [userTurn summaryRequestText])]),
                           error := none }
         ∧ (summarizeConversation (beF f) p.1 id2 { sessionId := some sid }).1.genCalls
             = p.1.genCalls + 1) := by
  constructor
  · simp [summarizeConversation, h]
  · refine ⟨[userTurn msg, modelTurn (f [userTurn msg])], ?_, ?_, ?_, ?_⟩
    · simp [chat, h, seedHistory, falsyStr, jsStr, sendMessage, callGen, beF,
        mapGet_mapSet_self]
    · simp [chat, h, seedHistory, falsyStr, jsStr, sendMessage, callGen, beF,
        mapGet_mapSet_self]
    · simp [chat, h, seedHistory, falsyStr, jsStr, sendMessage, callGen, beF,
        summarizeConversation, mapGet_mapSet_self, summaryRequestText]
    · simp [chat, h, seedHistory, falsyStr, jsStr, sendMessage, callGen, beF,
        summarizeConversation, mapGet_mapSet_self]

/-- Claim C8, witness: on the empty state, summarizing session "s1"
(which does not exist) fails with the InvalidParams envelope. -/
theorem summarize_session_witness :
    summarizeConversation (beF fun _ => "R") st0 (ReqId.num 4) { sessionId := some "s1" }
      = (st0, Except.ok (errorResponse (ReqId.num 4) (-32602)
          "No chat history found for this session")) :=
  (summarize_needs_session_then_one_extra_call (fun _ => "R") st0 (ReqId.num 1) (ReqId.num 2)
    (ReqId.num 4) "s1" "hi" rfl).1

/-- Claim C9: `clear_chat_history` for key `sid` deletes the session (a
lookup afterwards finds nothing) and reports success; a subsequent
`chat` with the same key behaves as if the session never existed — it
creates a fresh history seeded again from the supplied system prompt;
and on a state where the session still exists, `chat` with a system
prompt is indistinguishable from `chat` without one (first-write-wins:
the prompt is silently ignored). -/
theorem clear_removes_session_fresh_chat_reapplies_systemPrompt
    (f : List ChatMessage → String) (st : ServerState) (id1 id2 id3 : ReqId)
    (sid msg p : String) (hist0 : List ChatMessage)
    (h : mapGet st.chatSessions sid = some hist0) (hp : p ≠ "") :
    clearChatHistory st id1 { sessionId := some sid }
      = ({ st with chatSessions := mapDelete st.chatSessions sid },
         Except.ok { id := id1,
                     result := some (RValue.content ["Chat history cleared for session: " ++ sid]),
                     error := none })
    ∧ mapGet (mapDelete st.chatSessions sid) sid = none
    ∧ (let c := chat (beF f) { st with chatSessions := mapDelete st.chatSessions sid } id2
           { message := some msg, sessionId := some sid, systemPrompt := some p }
       mapGet c.1.chatSessions sid
         = some (seedHistory (some p) ++
             [userTurn msg, modelTurn (f (seedHistory (some p) ++ [userTurn msg]))]))
    ∧ chat (beF f) st id3 { message := some msg, sessionId := some sid, systemPrompt := some p }
        = chat (beF f) st id3 { message := some msg, sessionId := some sid, systemPrompt := none } := by
  refine ⟨rfl, mapGet_mapDelete_self _ _, ?_, ?_⟩
  · simp [chat, mapGet_mapDelete_self, seedHistory, falsyStr, jsStr, hp,
      sendMessage, callGen, beF, mapGet_mapSet_self]
  · simp [chat, h]

/-- Claim C9, witness: concrete state holding session "s1"; clearing it
returns the deletion state and the report envelope. -/
theorem clear_chat_witness :
    clearChatHistory { chatSessions := [("s1", [userTurn "hi"])], genCalls := 1 } (ReqId.num 5)
      { sessionId := some "s1" }
      = ({ chatSessions := mapDelete [("s1", [userTurn "hi"])] "s1", genCalls := 1 },
         Except.ok { id := ReqId.num 5,
                     result := some (RValue.content ["Chat history cleared for session: " ++ "s1"]),
                     error := none }) :=
  (clear_removes_session_fresh_chat_reapplies_systemPrompt (fun _ => "R")
    { chatSessions := [("s1", [userTurn "hi"])], genCalls := 1 } (ReqId.num 5) (ReqId.num 6)
    (ReqId.num 7) "s1" "hello" "be brief" [userTurn "hi"] rfl (by decide)).1

/-- Claim C10: any caller-supplied `prompt` of `extract_text_from_image`
is discarded — the outcome is the same whatever prompt (or none) the
caller passes, and it always equals delegating to the image-analysis
handler with the prompt replaced by the fixed OCR instruction — so only
the image source can influence the backend request. -/
theorem extractText_prompt_discarded (be : Backend) (fsys : FS) (st : ServerState)
    (id : ReqId) (args : ToolArgs) (p1 p2 : Option String) :
    extractTextFromImage be fsys st id { args with prompt := p1 }
      = extractTextFromImage be fsys st id { args with prompt := p2 }
    ∧ extractTextFromImage be fsys st id args
      = analyzeImage be fsys st id
          { args with prompt := some "Extract all text from this image. Provide only the extracted text without any additional commentary." } :=
  ⟨rfl, rfl⟩

end GeminiMCP
